import Mathlib

/-!
Verification of the gazer eye-tracking core: a shallow embedding of the
stacked-regression gaze estimator (`app/models/gaze_estimator.py`), the
session state machine (`app/models/tracker.py`), the configuration defaults
(`app/config.py`) and the real-time socket handler guard
(`app/routes/websocket_handlers.py`). Screen coordinates and landmark
coordinates are modelled as rationals; the concrete numerical regressors
(scikit-learn SVR and LinearRegression) sit behind a `FitStrategy`
abstraction, exactly as the spec's fit/predict capability contract demands:
every theorem below is proved for an arbitrary strategy.
-/

namespace Gazer

/-- A 2-D on-screen point `(x, y)`. -/
abbrev Pt : Type := ℚ × ℚ

/-- A 4-D feature vector (pupil vector or head vector). -/
abbrev Vec4 : Type := ℚ × ℚ × ℚ × ℚ

/-- Mirrors `ModelConfig` in `app/config.py`. -/
structure ModelConfig where
  svr_kernel : String
  svr_c : ℚ
  svr_degree : ℕ
  svr_epsilon : ℚ
  pupil_weight : ℚ
  head_weight : ℚ

/-- Default `ModelConfig` values from `app/config.py`. -/
def defaultModelConfig : ModelConfig :=
  { svr_kernel := "poly", svr_c := 150, svr_degree := 3, svr_epsilon := 1/10,
    pupil_weight := 3/2, head_weight := 1/2 }

/-- Mirrors `CalibrationConfig` in `app/config.py`. -/
structure CalibrationConfig where
  points_per_calibration : ℕ
  points_per_validation : ℕ
  points_per_test : ℕ
  min_accuracy_threshold : ℚ
  validation_distance_threshold : ℚ

/-- Default `CalibrationConfig` values from `app/config.py`. -/
def defaultCalibrationConfig : CalibrationConfig :=
  { points_per_calibration := 100, points_per_validation := 300,
    points_per_test := 400, min_accuracy_threshold := 13/20,
    validation_distance_threshold := 100 }

/-- Mirrors `TrackingConfig` in `app/config.py`. -/
structure TrackingConfig where
  max_history_points : ℕ
  smoothing_factor : ℚ

/-- Default `TrackingConfig` values from `app/config.py`. -/
def defaultTrackingConfig : TrackingConfig :=
  { max_history_points := 10, smoothing_factor := 1/2 }

/-- The aggregate configuration (`Config` in `app/config.py`; the server
section is transport-level and out of scope). -/
structure Config where
  model : ModelConfig
  calibration : CalibrationConfig
  tracking : TrackingConfig

/-- The default configuration instance. -/
def defaultConfig : Config :=
  { model := defaultModelConfig, calibration := defaultCalibrationConfig,
    tracking := defaultTrackingConfig }

/-- Mirrors the dataclass `CalibrationPoint` in `app/models/gaze_estimator.py`
after `__post_init__` has run, so the centroid fields are plain values. -/
structure CalibrationPoint where
  screen_x : ℚ
  screen_y : ℚ
  left_x : ℚ
  left_y : ℚ
  right_x : ℚ
  right_y : ℚ
  nose_x : ℚ
  nose_y : ℚ
  centroid_x : ℚ
  centroid_y : ℚ
  deriving DecidableEq

/-- Construction of a `CalibrationPoint` through `__post_init__`: the centroid
fields default to the per-axis mean of left, right and nose when not
supplied. -/
def CalibrationPoint.make (sx sy lx ly rx ry nx ny : ℚ)
    (cx cy : Option ℚ) : CalibrationPoint :=
  { screen_x := sx, screen_y := sy, left_x := lx, left_y := ly,
    right_x := rx, right_y := ry, nose_x := nx, nose_y := ny,
    centroid_x := cx.getD ((lx + rx + nx) / 3),
    centroid_y := cy.getD ((ly + ry + ny) / 3) }

/-- The pupil feature vector of a calibration point
(`left_x, left_y, right_x, right_y`). -/
def CalibrationPoint.pupilVec (p : CalibrationPoint) : Vec4 :=
  (p.left_x, p.left_y, p.right_x, p.right_y)

/-- The head feature vector of a calibration point
(`nose_x, nose_y, centroid_x, centroid_y`). -/
def CalibrationPoint.headVec (p : CalibrationPoint) : Vec4 :=
  (p.nose_x, p.nose_y, p.centroid_x, p.centroid_y)

/-- The target screen coordinates of a calibration point. -/
def CalibrationPoint.target (p : CalibrationPoint) : Pt :=
  (p.screen_x, p.screen_y)

/-- Error kinds of the core (`ValueError` for insufficient calibration data,
`RuntimeError` for prediction before calibration). -/
inductive GazeError where
  | insufficientCalibrationData (count : ℕ)
  | notCalibrated
  deriving DecidableEq

/-- The fit/predict capability contract behind which the concrete numerical
regressors sit: fitting a batch of inputs and targets yields a total
prediction function. `fitSVR` models `MultiOutputRegressor(SVR(...))` (it
receives the hyperparameters), `fitLin` models `LinearRegression` fitted on
2-D points. The ensemble's composition logic never looks inside. -/
structure FitStrategy where
  fitSVR : ModelConfig → List Vec4 → List Pt → Vec4 → Pt
  fitLin : List Pt → List Pt → Pt → Pt

/-- Scale a point by a scalar, componentwise. -/
def ptScale (c : ℚ) (p : Pt) : Pt := (c * p.1, c * p.2)

/-- Add two points componentwise. -/
def ptAdd (p q : Pt) : Pt := (p.1 + q.1, p.2 + q.2)

/-- Mirrors the state of `GazeEstimator` in `app/models/gaze_estimator.py`:
four fitted models, the validation correction model, and the two flags.
Unfitted scikit-learn models would raise on `predict`; here they are
placeholder functions, which is faithful because every code path guards
prediction behind `is_calibrated` / `is_validated`. -/
structure GazeEstimator where
  cfg : ModelConfig
  pupil_base : Vec4 → Pt
  head_base : Vec4 → Pt
  pupil_stacking : Pt → Pt
  head_stacking : Pt → Pt
  validation_model : Pt → Pt
  is_calibrated : Bool
  is_validated : Bool

/-- `GazeEstimator.__init__`: fresh placeholder models, both flags false. -/
def GazeEstimator.init (cfg : ModelConfig) : GazeEstimator :=
  { cfg := cfg,
    pupil_base := fun _ => (0, 0), head_base := fun _ => (0, 0),
    pupil_stacking := fun p => p, head_stacking := fun p => p,
    validation_model := fun p => p,
    is_calibrated := false, is_validated := false }

/-- `GazeEstimator.calibrate`: raises `InsufficientCalibrationData` when fewer
than 10 points are given; otherwise fits both base models on the feature
matrices, fits both stacking models on the base models' own training-set
predictions, and sets `is_calibrated`. -/
def GazeEstimator.calibrate (strat : FitStrategy) (e : GazeEstimator)
    (calibration_points : List CalibrationPoint) :
    Except GazeError GazeEstimator :=
  if calibration_points.length < 10 then
    .error (.insufficientCalibrationData calibration_points.length)
  else
    let pupil_features := calibration_points.map CalibrationPoint.pupilVec
    let head_features := calibration_points.map CalibrationPoint.headVec
    let screen_coords := calibration_points.map CalibrationPoint.target
    let pupil_base := strat.fitSVR e.cfg pupil_features screen_coords
    let head_base := strat.fitSVR e.cfg head_features screen_coords
    let pupil_predictions := pupil_features.map pupil_base
    let head_predictions := head_features.map head_base
    let pupil_stacking := strat.fitLin pupil_predictions screen_coords
    let head_stacking := strat.fitLin head_predictions screen_coords
    .ok { e with pupil_base := pupil_base, head_base := head_base,
                 pupil_stacking := pupil_stacking,
                 head_stacking := head_stacking,
                 is_calibrated := true }

/-- One row of the validation DataFrame handed to `train_validation`; a
`none` field models a missing/NaN cell that `dropna` removes. -/
structure ValRow where
  screen_x : Option ℚ
  screen_y : Option ℚ
  predicted_x : Option ℚ
  predicted_y : Option ℚ
  deriving DecidableEq

/-- `DataFrame.dropna`: keep only the rows in which every field is present. -/
def dropna (rows : List ValRow) : List ValRow :=
  rows.filter fun r =>
    r.screen_x.isSome && r.screen_y.isSome &&
    r.predicted_x.isSome && r.predicted_y.isSome

/-- `GazeEstimator.train_validation`: returns unchanged on an empty frame or
when fewer than 5 clean rows survive `dropna`; otherwise fits the validation
correction model mapping predicted coordinates to actual screen coordinates
and sets `is_validated`. -/
def GazeEstimator.train_validation (strat : FitStrategy) (e : GazeEstimator)
    (validation_data : List ValRow) : GazeEstimator :=
  if validation_data.isEmpty then e
  else
    let clean_data := dropna validation_data
    if clean_data.length < 5 then e
    else
      { e with
        validation_model := strat.fitLin
          (clean_data.map fun r => (r.predicted_x.getD 0, r.predicted_y.getD 0))
          (clean_data.map fun r => (r.screen_x.getD 0, r.screen_y.getD 0)),
        is_validated := true }

/-- `GazeEstimator.predict`: raises `NotCalibrated` unless calibrated;
otherwise runs base models, stacking models, the weighted combination, and —
only when validated — the validation correction model. -/
def GazeEstimator.predict (e : GazeEstimator) (pupil_data head_data : Vec4) :
    Except GazeError Pt :=
  if !e.is_calibrated then .error .notCalibrated
  else
    let pupil_base_pred := e.pupil_base pupil_data
    let head_base_pred := e.head_base head_data
    let pupil_final := e.pupil_stacking pupil_base_pred
    let head_final := e.head_stacking head_base_pred
    let combined := ptAdd (ptScale e.cfg.pupil_weight pupil_final)
                          (ptScale e.cfg.head_weight head_final)
    if e.is_validated then .ok (e.validation_model combined)
    else .ok combined

/-- `GazeEstimator.predict_raw`: as `predict` but never applies the
validation correction model. -/
def GazeEstimator.predict_raw (e : GazeEstimator)
    (pupil_data head_data : Vec4) : Except GazeError Pt :=
  if !e.is_calibrated then .error .notCalibrated
  else
    let pupil_base_pred := e.pupil_base pupil_data
    let head_base_pred := e.head_base head_data
    let pupil_final := e.pupil_stacking pupil_base_pred
    let head_final := e.head_stacking head_base_pred
    .ok (ptAdd (ptScale e.cfg.pupil_weight pupil_final)
               (ptScale e.cfg.head_weight head_final))

/-- `GazeEstimator.reset`: re-runs `__init__`. -/
def GazeEstimator.reset (e : GazeEstimator) : GazeEstimator :=
  GazeEstimator.init e.cfg

/-- Mirrors `TrackerState` in `app/models/tracker.py`. -/
inductive TrackerState where
  | IDLE
  | CALIBRATING
  | VALIDATING
  | TRACKING
  deriving DecidableEq

/-- Mirrors the dataclass `ValidationData` in `app/models/tracker.py`. -/
structure ValidationData where
  screen_x : ℚ
  screen_y : ℚ
  predicted_x : ℚ
  predicted_y : ℚ
  deriving DecidableEq

/-- The parsed calibration event payload (screen target plus landmarks). -/
structure CalibInput where
  screenX : ℚ
  screenY : ℚ
  leftX : ℚ
  leftY : ℚ
  rightX : ℚ
  rightY : ℚ
  noseX : ℚ
  noseY : ℚ
  deriving DecidableEq

/-- The parsed real-time tracking event payload (landmarks only). -/
structure RTInput where
  leftX : ℚ
  leftY : ℚ
  rightX : ℚ
  rightY : ℚ
  noseX : ℚ
  noseY : ℚ
  deriving DecidableEq

/-- Mirrors the state of `GazeTracker` in `app/models/tracker.py`. -/
structure GazeTracker where
  estimator : GazeEstimator
  state : TrackerState
  calibration_data : List CalibrationPoint
  validation_data : List ValidationData
  position_history : List Pt

/-- `GazeTracker.__init__`. -/
def GazeTracker.init (cfg : ModelConfig) : GazeTracker :=
  { estimator := GazeEstimator.init cfg, state := .IDLE,
    calibration_data := [], validation_data := [], position_history := [] }

/-- `GazeTracker.start_calibration`. -/
def GazeTracker.start_calibration (t : GazeTracker) : GazeTracker :=
  { t with state := .CALIBRATING, calibration_data := [] }

/-- `GazeTracker.add_calibration_point`: computes the centroid and appends a
`CalibrationPoint` built with the centroid supplied explicitly. -/
def GazeTracker.add_calibration_point (t : GazeTracker) (data : CalibInput) :
    GazeTracker :=
  let centroid_x := (data.leftX + data.rightX + data.noseX) / 3
  let centroid_y := (data.leftY + data.rightY + data.noseY) / 3
  let point := CalibrationPoint.make data.screenX data.screenY
    data.leftX data.leftY data.rightX data.rightY data.noseX data.noseY
    (some centroid_x) (some centroid_y)
  { t with calibration_data := t.calibration_data ++ [point] }

/-- `GazeTracker.finish_calibration`: calls `calibrate` on the accumulator;
on success moves to VALIDATING, clears the accumulator and returns true; the
`ValueError` (insufficient data) is caught and false returned with nothing
mutated. -/
def GazeTracker.finish_calibration (strat : FitStrategy) (t : GazeTracker) :
    GazeTracker × Bool :=
  match GazeEstimator.calibrate strat t.estimator t.calibration_data with
  | .ok e =>
      ({ t with estimator := e, state := .VALIDATING,
                calibration_data := [] }, true)
  | .error _ => (t, false)

/-- `GazeTracker.start_validation`. -/
def GazeTracker.start_validation (t : GazeTracker) : GazeTracker :=
  { t with state := .VALIDATING, validation_data := [] }

/-- `GazeTracker.add_validation_point`: appends the sample only when at least
one axis error is below the distance threshold. -/
def GazeTracker.add_validation_point (cfg : Config) (t : GazeTracker)
    (screen_x screen_y predicted_x predicted_y : ℚ) : GazeTracker :=
  let threshold := cfg.calibration.validation_distance_threshold
  if |predicted_x - screen_x| < threshold ∨
     |predicted_y - screen_y| < threshold then
    { t with validation_data := t.validation_data ++
        [{ screen_x := screen_x, screen_y := screen_y,
           predicted_x := predicted_x, predicted_y := predicted_y }] }
  else t

/-- The DataFrame row built from an accumulated validation point in
`finish_validation` (all fields present). -/
def ValidationData.toRow (v : ValidationData) : ValRow :=
  { screen_x := some v.screen_x, screen_y := some v.screen_y,
    predicted_x := some v.predicted_x, predicted_y := some v.predicted_y }

/-- `GazeTracker.finish_validation`: with an empty accumulator just moves to
TRACKING and returns false; otherwise hands the accumulated rows to
`train_validation`, moves to TRACKING, clears the accumulator and returns
true. -/
def GazeTracker.finish_validation (strat : FitStrategy) (t : GazeTracker) :
    GazeTracker × Bool :=
  if t.validation_data.isEmpty then
    ({ t with state := .TRACKING }, false)
  else
    let validation_df := t.validation_data.map ValidationData.toRow
    let e := GazeEstimator.train_validation strat t.estimator validation_df
    ({ t with estimator := e, state := .TRACKING,
              validation_data := [] }, true)

/-- `collections.deque(maxlen).append`: append on the right, dropping from
the left whenever the length would exceed `maxlen`. -/
def dequeAppend (maxlen : ℕ) (history : List Pt) (p : Pt) : List Pt :=
  if maxlen < (history ++ [p]).length then
    (history ++ [p]).drop ((history ++ [p]).length - maxlen)
  else history ++ [p]

/-- `GazeTracker._smooth_position`: with empty history push and return the
raw point; otherwise blend with the most recently pushed point using the
smoothing factor, push the blend and return it. -/
def GazeTracker.smooth_position (cfg : Config) (t : GazeTracker)
    (current : Pt) : GazeTracker × Pt :=
  if t.position_history = [] then
    ({ t with position_history :=
        (dequeAppend cfg.tracking.max_history_points t.position_history
          current) }, current)
  else
    let prev := t.position_history.getLastD (0, 0)
    let alpha := cfg.tracking.smoothing_factor
    let smoothed : Pt :=
      (alpha * prev.1 + (1 - alpha) * current.1,
       alpha * prev.2 + (1 - alpha) * current.2)
    ({ t with position_history :=
        (dequeAppend cfg.tracking.max_history_points t.position_history
          smoothed) }, smoothed)

/-- `GazeTracker.track`: computes the centroid, builds the pupil and head
feature rows, predicts (raising `NotCalibrated` when uncalibrated), then
smooths. Returns the updated tracker and the smoothed point. -/
def GazeTracker.track (cfg : Config) (t : GazeTracker) (data : RTInput) :
    Except GazeError (GazeTracker × Pt) :=
  let centroid_x := (data.leftX + data.rightX + data.noseX) / 3
  let centroid_y := (data.leftY + data.rightY + data.noseY) / 3
  let pupil_data : Vec4 := (data.leftX, data.leftY, data.rightX, data.rightY)
  let head_data : Vec4 := (data.noseX, data.noseY, centroid_x, centroid_y)
  match GazeEstimator.predict t.estimator pupil_data head_data with
  | .error err => .error err
  | .ok gaze_point => .ok (GazeTracker.smooth_position cfg t gaze_point)

/-- `GazeTracker.predict_for_validation`: raw (uncorrected, unsmoothed)
prediction on the same feature construction as `track`. -/
def GazeTracker.predict_for_validation (t : GazeTracker) (data : RTInput) :
    Except GazeError Pt :=
  let centroid_x := (data.leftX + data.rightX + data.noseX) / 3
  let centroid_y := (data.leftY + data.rightY + data.noseY) / 3
  GazeEstimator.predict_raw t.estimator
    (data.leftX, data.leftY, data.rightX, data.rightY)
    (data.noseX, data.noseY, centroid_x, centroid_y)

/-- `GazeTracker.reset`: resets the estimator, returns to IDLE, clears both
accumulators and the history. -/
def GazeTracker.reset (t : GazeTracker) : GazeTracker :=
  { estimator := t.estimator.reset, state := .IDLE,
    calibration_data := [], validation_data := [], position_history := [] }

/-- The `realTimeData` socket handler in
`app/routes/websocket_handlers.py`: skips silently (no response emitted)
when the model is not calibrated, emits the smoothed coordinates on success,
and also swallows a `RuntimeError` escaping from `track`. -/
def handle_real_time_data (cfg : Config) (t : GazeTracker) (data : RTInput) :
    GazeTracker × Option Pt :=
  if !t.estimator.is_calibrated then (t, none)
  else
    match GazeTracker.track cfg t data with
    | .ok r => (r.1, some r.2)
    | .error _ => (t, none)

/-- The inbound operations of the session state machine, used to reason
about which operation can empty which accumulator. -/
inductive TrackerOp where
  | startCalibration
  | addCalibrationPoint (data : CalibInput)
  | finishCalibration
  | startValidation
  | addValidationPoint (sx sy px py : ℚ)
  | finishValidation
  | trackOp (data : RTInput)
  | predictForValidation (data : RTInput)
  | resetOp
  deriving DecidableEq

/-- The state transformation each operation performs on the tracker
(return values projected away; a raising `track` leaves the state
unchanged, matching the handler's catch). -/
def applyOp (strat : FitStrategy) (cfg : Config) (op : TrackerOp)
    (t : GazeTracker) : GazeTracker :=
  match op with
  | .startCalibration => t.start_calibration
  | .addCalibrationPoint d => t.add_calibration_point d
  | .finishCalibration => (GazeTracker.finish_calibration strat t).1
  | .startValidation => t.start_validation
  | .addValidationPoint sx sy px py =>
      GazeTracker.add_validation_point cfg t sx sy px py
  | .finishValidation => (GazeTracker.finish_validation strat t).1
  | .trackOp d =>
      match GazeTracker.track cfg t d with
      | .ok r => r.1
      | .error _ => t
  | .predictForValidation _ => t
  | .resetOp => t.reset

/-! ### Concrete instances used by the witnesses -/

/-- A trivial concrete fit strategy (the spec's stub-regressor testability
requirement): ignores the inputs and predicts the first training target. -/
def constStrategy : FitStrategy :=
  { fitSVR := fun _ _ ys _ => ys.headD (0, 0),
    fitLin := fun _ ys _ => ys.headD (0, 0) }

/-- A synthetic calibration point with all coordinates equal to `i`. -/
def samplePoint (i : ℕ) : CalibrationPoint :=
  { screen_x := (i : ℚ), screen_y := (i : ℚ), left_x := (i : ℚ),
    left_y := (i : ℚ), right_x := (i : ℚ), right_y := (i : ℚ),
    nose_x := (i : ℚ), nose_y := (i : ℚ), centroid_x := (i : ℚ),
    centroid_y := (i : ℚ) }

/-- `n` synthetic calibration points. -/
def samplePoints (n : ℕ) : List CalibrationPoint :=
  (List.range n).map samplePoint

/-- A synthetic clean validation row. -/
def sampleRow (i : ℕ) : ValRow :=
  { screen_x := some (i : ℚ), screen_y := some (i : ℚ),
    predicted_x := some (i : ℚ), predicted_y := some (i : ℚ) }

/-- `n` synthetic clean validation rows. -/
def sampleRows (n : ℕ) : List ValRow :=
  (List.range n).map sampleRow

/-- A synthetic real-time landmark payload. -/
def sampleRT : RTInput :=
  { leftX := 1, leftY := 2, rightX := 3, rightY := 4, noseX := 5, noseY := 6 }

/-- A concrete estimator actually calibrated through `calibrate` with the
stub strategy on 10 synthetic points. -/
def calibratedSample : GazeEstimator :=
  match GazeEstimator.calibrate constStrategy
      (GazeEstimator.init defaultModelConfig) (samplePoints 10) with
  | .ok e => e
  | .error _ => GazeEstimator.init defaultModelConfig

/-- A concrete estimator additionally validated through `train_validation`
on 5 synthetic clean rows. -/
def validatedSample : GazeEstimator :=
  GazeEstimator.train_validation constStrategy calibratedSample (sampleRows 5)

/-! ### Shared helper lemmas -/

/-- `calibrate` on fewer than 10 points returns the counting error. -/
theorem calibrate_of_lt (strat : FitStrategy) (e : GazeEstimator)
    (pts : List CalibrationPoint) (h : pts.length < 10) :
    GazeEstimator.calibrate strat e pts =
      .error (.insufficientCalibrationData pts.length) := by
  simp [GazeEstimator.calibrate, h]

/-- `calibrate` on at least 10 points succeeds, sets `is_calibrated`, and
changes neither `is_validated` nor the configuration nor the validation
model. -/
theorem calibrate_of_ge (strat : FitStrategy) (e : GazeEstimator)
    (pts : List CalibrationPoint) (h : 10 ≤ pts.length) :
    ∃ e2, GazeEstimator.calibrate strat e pts = .ok e2 ∧
      e2.is_calibrated = true ∧ e2.is_validated = e.is_validated ∧
      e2.cfg = e.cfg ∧ e2.validation_model = e.validation_model := by
  unfold GazeEstimator.calibrate
  rw [if_neg (not_lt.mpr h)]
  exact ⟨_, rfl, rfl, rfl, rfl, rfl⟩

/-- `predict` on a calibrated estimator always succeeds. -/
theorem predict_ok_of_calibrated (e : GazeEstimator) (pupil head : Vec4)
    (h : e.is_calibrated = true) :
    ∃ p, GazeEstimator.predict e pupil head = .ok p := by
  unfold GazeEstimator.predict
  rw [h]
  cases hv : e.is_validated <;> simp [hv]

/-! ### C1 -/

/-- C1: `calibrate` with fewer than 10 samples always fails with
`InsufficientCalibrationData` carrying the sample count — no new estimator is
produced, so `is_calibrated` stays false; with 10 or more samples `calibrate`
completes, the resulting estimator has `is_calibrated = true`, and a
subsequent `predict` succeeds, in particular it no longer fails with
`NotCalibrated`. -/
theorem calibrate_sample_threshold (strat : FitStrategy) (e : GazeEstimator)
    (pts : List CalibrationPoint) :
    (pts.length < 10 →
      GazeEstimator.calibrate strat e pts =
        .error (.insufficientCalibrationData pts.length)) ∧
    (10 ≤ pts.length →
      ∃ e2, GazeEstimator.calibrate strat e pts = .ok e2 ∧
        e2.is_calibrated = true ∧
        ∀ pupil head, ∃ p, GazeEstimator.predict e2 pupil head = .ok p ∧
          GazeEstimator.predict e2 pupil head ≠ .error .notCalibrated) := by
  constructor
  · exact calibrate_of_lt strat e pts
  · intro h
    obtain ⟨e2, hc, hcal, _, _, _⟩ := calibrate_of_ge strat e pts h
    refine ⟨e2, hc, hcal, fun pupil head => ?_⟩
    obtain ⟨p, hp⟩ := predict_ok_of_calibrated e2 pupil head hcal
    exact ⟨p, hp, by rw [hp]; intro hcontra; cases hcontra⟩

/-- Witness for C1: 3 concrete points fail with the counted error; 10
concrete points calibrate successfully and prediction succeeds. -/
theorem calibrate_sample_threshold_witness :
    (GazeEstimator.calibrate constStrategy
        (GazeEstimator.init defaultModelConfig) (samplePoints 3) =
      .error (.insufficientCalibrationData (samplePoints 3).length)) ∧
    (∃ e2, GazeEstimator.calibrate constStrategy
        (GazeEstimator.init defaultModelConfig) (samplePoints 10) = .ok e2 ∧
      e2.is_calibrated = true ∧
      ∀ pupil head, ∃ p, GazeEstimator.predict e2 pupil head = .ok p ∧
        GazeEstimator.predict e2 pupil head ≠ .error .notCalibrated) := by
  exact ⟨(calibrate_sample_threshold constStrategy
            (GazeEstimator.init defaultModelConfig) (samplePoints 3)).1
          (by decide),
         (calibrate_sample_threshold constStrategy
            (GazeEstimator.init defaultModelConfig) (samplePoints 10)).2
          (by decide)⟩

/-! ### C2 -/

/-- C2: `finish_calibration` invokes the ensemble's `calibrate` on the
accumulated samples; on success it clears the accumulator, moves the phase to
VALIDATING and returns true; on `InsufficientCalibrationData` (fewer than 10
accumulated samples, e.g. only 3) it returns false with the tracker entirely
unchanged: the accumulator retains exactly its samples and the phase remains
CALIBRATING. -/
theorem finish_calibration_transition (strat : FitStrategy)
    (t : GazeTracker) :
    (t.calibration_data.length < 10 →
      GazeTracker.finish_calibration strat t = (t, false)) ∧
    (10 ≤ t.calibration_data.length →
      ∃ e2, GazeEstimator.calibrate strat t.estimator t.calibration_data =
          .ok e2 ∧
        GazeTracker.finish_calibration strat t =
          ({ t with estimator := e2, state := .VALIDATING,
                    calibration_data := [] }, true)) := by
  constructor
  · intro h
    unfold GazeTracker.finish_calibration
    rw [calibrate_of_lt strat t.estimator t.calibration_data h]
  · intro h
    obtain ⟨e2, hc, _, _, _, _⟩ :=
      calibrate_of_ge strat t.estimator t.calibration_data h
    refine ⟨e2, hc, ?_⟩
    unfold GazeTracker.finish_calibration
    rw [hc]

/-- A concrete tracker in the CALIBRATING phase with `n` accumulated
synthetic samples. -/
def calibratingTracker (n : ℕ) : GazeTracker :=
  { estimator := GazeEstimator.init defaultModelConfig,
    state := .CALIBRATING, calibration_data := samplePoints n,
    validation_data := [], position_history := [] }

/-- Witness for C2: with only 3 accumulated samples `finish_calibration`
returns failure and the tracker — accumulator and phase included — is
unchanged; with 10 samples it succeeds, clears the accumulator and moves to
VALIDATING. -/
theorem finish_calibration_transition_witness :
    (GazeTracker.finish_calibration constStrategy (calibratingTracker 3) =
      (calibratingTracker 3, false)) ∧
    (∃ e2, GazeEstimator.calibrate constStrategy
        (calibratingTracker 10).estimator
        (calibratingTracker 10).calibration_data = .ok e2 ∧
      GazeTracker.finish_calibration constStrategy (calibratingTracker 10) =
        ({ calibratingTracker 10 with estimator := e2, state := .VALIDATING,
                                      calibration_data := [] }, true)) := by
  exact ⟨(finish_calibration_transition constStrategy
            (calibratingTracker 3)).1 (by decide),
         (finish_calibration_transition constStrategy
            (calibratingTracker 10)).2 (by decide)⟩

/-! ### C3 -/

/-- C3: whenever `is_calibrated` is false, `predict` and `predict_raw` both
fail with `NotCalibrated`; and the real-time handler treats tracking before
successful calibration as a no-op — the tracker is unchanged and no response
is emitted — rather than propagating a fatal error. -/
theorem not_calibrated_prediction (e : GazeEstimator) (pupil head : Vec4)
    (cfg : Config) (t : GazeTracker) (data : RTInput) :
    (e.is_calibrated = false →
      GazeEstimator.predict e pupil head = .error .notCalibrated ∧
      GazeEstimator.predict_raw e pupil head = .error .notCalibrated) ∧
    (t.estimator.is_calibrated = false →
      handle_real_time_data cfg t data = (t, none)) := by
  constructor
  · intro h
    exact ⟨by simp [GazeEstimator.predict, h],
           by simp [GazeEstimator.predict_raw, h]⟩
  · intro h
    simp [handle_real_time_data, h]

/-- Witness for C3: the freshly initialized estimator and tracker are not
calibrated; prediction fails with `NotCalibrated` and the real-time handler
emits nothing. -/
theorem not_calibrated_prediction_witness :
    (GazeEstimator.predict (GazeEstimator.init defaultModelConfig)
        (0, 0, 0, 0) (0, 0, 0, 0) = .error .notCalibrated ∧
     GazeEstimator.predict_raw (GazeEstimator.init defaultModelConfig)
        (0, 0, 0, 0) (0, 0, 0, 0) = .error .notCalibrated) ∧
    handle_real_time_data defaultConfig
        (GazeTracker.init defaultModelConfig) sampleRT =
      (GazeTracker.init defaultModelConfig, none) := by
  exact ⟨(not_calibrated_prediction (GazeEstimator.init defaultModelConfig)
            (0, 0, 0, 0) (0, 0, 0, 0) defaultConfig
            (GazeTracker.init defaultModelConfig) sampleRT).1 rfl,
         (not_calibrated_prediction (GazeEstimator.init defaultModelConfig)
            (0, 0, 0, 0) (0, 0, 0, 0) defaultConfig
            (GazeTracker.init defaultModelConfig) sampleRT).2 rfl⟩

/-! ### C4 -/

/-- C4: on a calibrated estimator `predict_raw` returns, per axis,
`pupil_weight * pupilStack(pupilBase(pupil)) + head_weight *
headStack(headBase(head))`, the weights being the two independent configured
scalars; the defaults are `pupil_weight = 3/2` and `head_weight = 1/2`, which
do not sum to 1 and are not renormalized. -/
theorem predict_raw_weighted_combination (e : GazeEstimator)
    (pupil head : Vec4) (h : e.is_calibrated = true) :
    GazeEstimator.predict_raw e pupil head =
      .ok (ptAdd
        (ptScale e.cfg.pupil_weight (e.pupil_stacking (e.pupil_base pupil)))
        (ptScale e.cfg.head_weight (e.head_stacking (e.head_base head)))) ∧
    defaultModelConfig.pupil_weight = 3/2 ∧
    defaultModelConfig.head_weight = 1/2 ∧
    defaultModelConfig.pupil_weight + defaultModelConfig.head_weight ≠ 1 := by
  refine ⟨?_, rfl, rfl, by norm_num [defaultModelConfig]⟩
  simp [GazeEstimator.predict_raw, h]

/-- Witness for C4: the weighted-combination formula evaluated on the
concretely calibrated estimator. -/
theorem predict_raw_weighted_combination_witness :
    GazeEstimator.predict_raw calibratedSample (1, 2, 3, 4) (5, 6, 7, 8) =
      .ok (ptAdd
        (ptScale calibratedSample.cfg.pupil_weight
          (calibratedSample.pupil_stacking
            (calibratedSample.pupil_base (1, 2, 3, 4))))
        (ptScale calibratedSample.cfg.head_weight
          (calibratedSample.head_stacking
            (calibratedSample.head_base (5, 6, 7, 8))))) ∧
    defaultModelConfig.pupil_weight + defaultModelConfig.head_weight ≠ 1 := by
  exact ⟨(predict_raw_weighted_combination calibratedSample
            (1, 2, 3, 4) (5, 6, 7, 8) rfl).1,
         (predict_raw_weighted_combination calibratedSample
            (1, 2, 3, 4) (5, 6, 7, 8) rfl).2.2.2⟩

/-! ### C5 -/

/-- C5: on a calibrated estimator, `predict` returns exactly the same point
as `predict_raw` when `is_validated` is false; when `is_validated` is true it
returns the validation-correction regressor applied to the raw combined
point instead. -/
theorem predict_validation_refinement (e : GazeEstimator)
    (pupil head : Vec4) (h : e.is_calibrated = true) :
    (e.is_validated = false →
      GazeEstimator.predict e pupil head =
        GazeEstimator.predict_raw e pupil head) ∧
    (e.is_validated = true →
      ∃ r, GazeEstimator.predict_raw e pupil head = .ok r ∧
        GazeEstimator.predict e pupil head = .ok (e.validation_model r)) := by
  constructor
  · intro hv
    simp [GazeEstimator.predict, GazeEstimator.predict_raw, h, hv]
  · intro hv
    refine ⟨ptAdd
        (ptScale e.cfg.pupil_weight (e.pupil_stacking (e.pupil_base pupil)))
        (ptScale e.cfg.head_weight (e.head_stacking (e.head_base head))),
      ?_, ?_⟩
    · simp [GazeEstimator.predict_raw, h]
    · simp [GazeEstimator.predict, h, hv]

/-- Witness for C5: on the concretely calibrated (not yet validated)
estimator `predict` and `predict_raw` agree; on the concretely validated
estimator `predict` is the correction model applied to the raw point. -/
theorem predict_validation_refinement_witness :
    (GazeEstimator.predict calibratedSample (1, 2, 3, 4) (5, 6, 7, 8) =
      GazeEstimator.predict_raw calibratedSample (1, 2, 3, 4) (5, 6, 7, 8)) ∧
    (∃ r, GazeEstimator.predict_raw validatedSample (1, 2, 3, 4)
        (5, 6, 7, 8) = .ok r ∧
      GazeEstimator.predict validatedSample (1, 2, 3, 4) (5, 6, 7, 8) =
        .ok (validatedSample.validation_model r)) := by
  exact ⟨(predict_validation_refinement calibratedSample
            (1, 2, 3, 4) (5, 6, 7, 8) rfl).1 rfl,
         (predict_validation_refinement validatedSample
            (1, 2, 3, 4) (5, 6, 7, 8) rfl).2 rfl⟩

/-! ### C6 -/

/-- Appending to an empty bounded history of positive capacity stores the
point. -/
theorem dequeAppend_nil (maxlen : ℕ) (p : Pt) (hm : 1 ≤ maxlen) :
    dequeAppend maxlen [] p = [p] := by
  unfold dequeAppend
  rw [if_neg (by simp; omega)]
  simp

/-- Bounded append never grows the history beyond the capacity. -/
theorem dequeAppend_length (maxlen : ℕ) (h : List Pt) (p : Pt)
    (hle : h.length ≤ maxlen) :
    (dequeAppend maxlen h p).length ≤ maxlen := by
  have hlen : (h ++ [p]).length = h.length + 1 := by simp
  unfold dequeAppend
  by_cases hc : maxlen < (h ++ [p]).length
  · rw [if_pos hc, List.length_drop]
    omega
  · rw [if_neg hc]
    omega

/-- C6: the smoothing filter emits a raw point unchanged and pushes it when
the history is empty; otherwise it emits `alpha*prev + (1-alpha)*current`
per axis with `prev` the most recently pushed point, pushes the emitted
point, and evicts the oldest entry on overflow so the stored history length
never exceeds the capacity; the defaults are `alpha = 1/2` and capacity 10;
and concretely, from empty history raw point `(20,20)` emits `(20,20)` and a
subsequent `(40,40)` emits `(30,30)`. -/
theorem smooth_position_spec (cfg : Config) (t : GazeTracker)
    (current : Pt) :
    (t.position_history = [] → 1 ≤ cfg.tracking.max_history_points →
      GazeTracker.smooth_position cfg t current =
        ({ t with position_history := [current] }, current)) ∧
    (∀ rest prev, t.position_history = rest ++ [prev] →
      GazeTracker.smooth_position cfg t current =
        ({ t with position_history :=
            (dequeAppend cfg.tracking.max_history_points t.position_history
              (cfg.tracking.smoothing_factor * prev.1 +
                 (1 - cfg.tracking.smoothing_factor) * current.1,
               cfg.tracking.smoothing_factor * prev.2 +
                 (1 - cfg.tracking.smoothing_factor) * current.2)) },
         (cfg.tracking.smoothing_factor * prev.1 +
            (1 - cfg.tracking.smoothing_factor) * current.1,
          cfg.tracking.smoothing_factor * prev.2 +
            (1 - cfg.tracking.smoothing_factor) * current.2))) ∧
    (t.position_history.length ≤ cfg.tracking.max_history_points →
      (GazeTracker.smooth_position cfg t current).1.position_history.length ≤
        cfg.tracking.max_history_points) ∧
    (defaultTrackingConfig.smoothing_factor = 1/2 ∧
     defaultTrackingConfig.max_history_points = 10) ∧
    ((GazeTracker.smooth_position defaultConfig
        (GazeTracker.init defaultModelConfig) (20, 20)).2 = (20, 20) ∧
     (GazeTracker.smooth_position defaultConfig
        (GazeTracker.init defaultModelConfig) (20, 20)).1.position_history =
       [(20, 20)] ∧
     (GazeTracker.smooth_position defaultConfig
        (GazeTracker.smooth_position defaultConfig
          (GazeTracker.init defaultModelConfig) (20, 20)).1
        (40, 40)).2 = (30, 30)) := by
  refine ⟨?_, ?_, ?_, ⟨rfl, rfl⟩, by decide, by decide, ?_⟩
  · intro he hm
    unfold GazeTracker.smooth_position
    rw [if_pos he, he, dequeAppend_nil _ _ hm]
  · intro rest prev hrp
    have hne : t.position_history ≠ [] := by
      rw [hrp]; exact List.append_ne_nil_of_right_ne_nil rest (by simp)
    have hlast : t.position_history.getLastD (0, 0) = prev := by
      rw [hrp]; exact List.getLastD_concat _ _ _
    unfold GazeTracker.smooth_position
    rw [if_neg hne, hlast]
  · intro hle
    unfold GazeTracker.smooth_position
    by_cases he : t.position_history = []
    · rw [if_pos he]
      exact dequeAppend_length _ _ _ hle
    · rw [if_neg he]
      exact dequeAppend_length _ _ _ hle
  · norm_num [GazeTracker.smooth_position, GazeTracker.init,
      GazeEstimator.init, dequeAppend, defaultConfig, defaultTrackingConfig,
      defaultModelConfig, List.getLastD]

/-- Witness for C6: the general branches evaluated on concrete trackers —
an empty history stores and emits the raw point, a one-point history blends
with factor one half, and the capacity bound holds at a full history. -/
theorem smooth_position_spec_witness :
    (GazeTracker.smooth_position defaultConfig
        (GazeTracker.init defaultModelConfig) (20, 20) =
      ({ GazeTracker.init defaultModelConfig with
          position_history := [(20, 20)] }, (20, 20))) ∧
    (GazeTracker.smooth_position defaultConfig
        { GazeTracker.init defaultModelConfig with
            position_history := [] ++ [(20, 20)] } (40, 40) =
      ({ GazeTracker.init defaultModelConfig with
          position_history :=
            (dequeAppend defaultConfig.tracking.max_history_points
              ([] ++ [(20, 20)])
              (defaultConfig.tracking.smoothing_factor * 20 +
                 (1 - defaultConfig.tracking.smoothing_factor) * 40,
               defaultConfig.tracking.smoothing_factor * 20 +
                 (1 - defaultConfig.tracking.smoothing_factor) * 40)) },
       (defaultConfig.tracking.smoothing_factor * 20 +
          (1 - defaultConfig.tracking.smoothing_factor) * 40,
        defaultConfig.tracking.smoothing_factor * 20 +
          (1 - defaultConfig.tracking.smoothing_factor) * 40))) := by
  constructor
  · exact (smooth_position_spec defaultConfig
      (GazeTracker.init defaultModelConfig) (20, 20)).1 rfl (by decide)
  · exact (smooth_position_spec defaultConfig
      { GazeTracker.init defaultModelConfig with
          position_history := [] ++ [(20, 20)] } (40, 40)).2.1
      [] (20, 20) rfl

/-! ### C7 -/

/-- C7: `add_validation_point` retains the sample — appending it to the
validation accumulator and mutating nothing else — if and only if the x-axis
error or the y-axis error (logical OR, not AND) is below the distance
threshold; a sample failing both tests leaves the tracker entirely
unchanged; the default threshold is 100. -/
theorem add_validation_point_filter (cfg : Config) (t : GazeTracker)
    (sx sy px py : ℚ) :
    (|px - sx| < cfg.calibration.validation_distance_threshold ∨
     |py - sy| < cfg.calibration.validation_distance_threshold →
      GazeTracker.add_validation_point cfg t sx sy px py =
        { t with validation_data := t.validation_data ++
            [{ screen_x := sx, screen_y := sy,
               predicted_x := px, predicted_y := py }] }) ∧
    (¬(|px - sx| < cfg.calibration.validation_distance_threshold ∨
       |py - sy| < cfg.calibration.validation_distance_threshold) →
      GazeTracker.add_validation_point cfg t sx sy px py = t) ∧
    defaultConfig.calibration.validation_distance_threshold = 100 := by
  refine ⟨?_, ?_, rfl⟩
  · intro h
    unfold GazeTracker.add_validation_point
    rw [if_pos h]
  · intro h
    unfold GazeTracker.add_validation_point
    rw [if_neg h]

/-- Witness for C7: a sample whose x error (50) passes while its y error
(500) fails is retained — the OR, not AND, behaviour — and a sample failing
both axes (errors 200 and 150) is discarded with the tracker unchanged. -/
theorem add_validation_point_filter_witness :
    (GazeTracker.add_validation_point defaultConfig
        (GazeTracker.init defaultModelConfig) 0 0 50 500 =
      { GazeTracker.init defaultModelConfig with validation_data :=
          (GazeTracker.init defaultModelConfig).validation_data ++
            [{ screen_x := 0, screen_y := 0,
               predicted_x := 50, predicted_y := 500 }] }) ∧
    (GazeTracker.add_validation_point defaultConfig
        (GazeTracker.init defaultModelConfig) 0 0 200 150 =
      GazeTracker.init defaultModelConfig) := by
  exact ⟨(add_validation_point_filter defaultConfig
            (GazeTracker.init defaultModelConfig) 0 0 50 500).1
          (Or.inl (by norm_num [defaultConfig, defaultCalibrationConfig])),
         (add_validation_point_filter defaultConfig
            (GazeTracker.init defaultModelConfig) 0 0 200 150).2.1
          (by norm_num [defaultConfig, defaultCalibrationConfig])⟩

/-! ### C8 -/

/-- C8: `train_validation` first drops rows with missing fields; when fewer
than 5 clean rows remain (the empty set included) it returns with the
estimator entirely unchanged — no error is raised and `is_validated` stays
false when it was false; with 5 or more clean rows it fits the linear
correction regressor mapping predicted coordinates to the true targets and
sets `is_validated := true`. -/
theorem train_validation_threshold (strat : FitStrategy) (e : GazeEstimator)
    (rows : List ValRow) :
    ((dropna rows).length < 5 →
      GazeEstimator.train_validation strat e rows = e ∧
      (e.is_validated = false →
        (GazeEstimator.train_validation strat e rows).is_validated =
          false)) ∧
    (5 ≤ (dropna rows).length →
      GazeEstimator.train_validation strat e rows =
        { e with
          validation_model := strat.fitLin
            ((dropna rows).map fun r =>
              (r.predicted_x.getD 0, r.predicted_y.getD 0))
            ((dropna rows).map fun r =>
              (r.screen_x.getD 0, r.screen_y.getD 0)),
          is_validated := true }) := by
  constructor
  · intro h
    have heq : GazeEstimator.train_validation strat e rows = e := by
      unfold GazeEstimator.train_validation
      by_cases hr : rows.isEmpty
      · rw [if_pos hr]
      · rw [if_neg hr, if_pos h]
    exact ⟨heq, fun hv => by rw [heq, hv]⟩
  · intro h
    have hr : ¬ rows.isEmpty = true := by
      cases rows with
      | nil => simp [dropna] at h
      | cons a l => simp
    unfold GazeEstimator.train_validation
    rw [if_neg hr, if_neg (not_lt.mpr h)]

/-- A validation row with a missing field (dropped by `dropna`). -/
def dirtyRow : ValRow :=
  { screen_x := none, screen_y := some 1,
    predicted_x := some 2, predicted_y := some 3 }

/-- Witness for C8: three clean rows plus two dirty rows leave the estimator
unchanged and unvalidated; five clean rows train the correction model and
set `is_validated`. -/
theorem train_validation_threshold_witness :
    (GazeEstimator.train_validation constStrategy calibratedSample
        (dirtyRow :: dirtyRow :: sampleRows 3) = calibratedSample ∧
      (GazeEstimator.train_validation constStrategy calibratedSample
        (dirtyRow :: dirtyRow :: sampleRows 3)).is_validated = false) ∧
    GazeEstimator.train_validation constStrategy calibratedSample
        (sampleRows 5) =
      { calibratedSample with
        validation_model := constStrategy.fitLin
          ((dropna (sampleRows 5)).map fun r =>
            (r.predicted_x.getD 0, r.predicted_y.getD 0))
          ((dropna (sampleRows 5)).map fun r =>
            (r.screen_x.getD 0, r.screen_y.getD 0)),
        is_validated := true } := by
  constructor
  · have h := (train_validation_threshold constStrategy calibratedSample
      (dirtyRow :: dirtyRow :: sampleRows 3)).1 (by decide)
    exact ⟨h.1, h.2 rfl⟩
  · exact (train_validation_threshold constStrategy calibratedSample
      (sampleRows 5)).2 (by decide)

/-! ### C9 -/

/-- C9: every landmark sample ingested by `add_calibration_point`, `track`
or `predict_for_validation` yields features whose centroid fields are
exactly the per-axis arithmetic mean of the left, right and nose
coordinates; and a `CalibrationPoint` built without supplied centroids
computes exactly that mean, so the centroid is never independently supplied
once computed. -/
theorem centroid_is_mean (t : GazeTracker) (d : CalibInput) (cfg : Config)
    (r : RTInput) (sx sy lx ly rx ry nx ny : ℚ) :
    (∃ p, (t.add_calibration_point d).calibration_data =
        t.calibration_data ++ [p] ∧
      p.centroid_x = (d.leftX + d.rightX + d.noseX) / 3 ∧
      p.centroid_y = (d.leftY + d.rightY + d.noseY) / 3) ∧
    (GazeTracker.track cfg t r =
      match GazeEstimator.predict t.estimator
          (r.leftX, r.leftY, r.rightX, r.rightY)
          (r.noseX, r.noseY, (r.leftX + r.rightX + r.noseX) / 3,
           (r.leftY + r.rightY + r.noseY) / 3) with
      | .error err => .error err
      | .ok gp => .ok (GazeTracker.smooth_position cfg t gp)) ∧
    (GazeTracker.predict_for_validation t r =
      GazeEstimator.predict_raw t.estimator
        (r.leftX, r.leftY, r.rightX, r.rightY)
        (r.noseX, r.noseY, (r.leftX + r.rightX + r.noseX) / 3,
         (r.leftY + r.rightY + r.noseY) / 3)) ∧
    ((CalibrationPoint.make sx sy lx ly rx ry nx ny none none).centroid_x =
        (lx + rx + nx) / 3 ∧
     (CalibrationPoint.make sx sy lx ly rx ry nx ny none none).centroid_y =
        (ly + ry + ny) / 3) := by
  exact ⟨⟨_, rfl, rfl, rfl⟩, rfl, rfl, rfl, rfl⟩

/-! ### C10 -/

/-- A concrete tracker in the VALIDATING phase holding one accumulated
validation sample. -/
def validatingTracker : GazeTracker :=
  { estimator := GazeEstimator.init defaultModelConfig,
    state := .VALIDATING, calibration_data := [],
    validation_data := [{ screen_x := 0, screen_y := 0,
                          predicted_x := 1, predicted_y := 1 }],
    position_history := [] }

/-- Counterexample to C10 as stated: `finish_validation` — which is neither
`start_validation` nor `reset` — also empties a nonempty validation
accumulator (it clears it after handing the samples to
`train_validation`). -/
theorem validation_accumulator_only_clear_refuted :
    validatingTracker.validation_data ≠ [] ∧
    TrackerOp.finishValidation ≠ TrackerOp.startValidation ∧
    TrackerOp.finishValidation ≠ TrackerOp.resetOp ∧
    (applyOp constStrategy defaultConfig TrackerOp.finishValidation
      validatingTracker).validation_data = [] := by
  exact ⟨by decide, by decide, by decide, rfl⟩

/-- Smoothing never touches the validation accumulator. -/
theorem smooth_position_validation_frame (cfg : Config) (t : GazeTracker)
    (current : Pt) :
    (GazeTracker.smooth_position cfg t current).1.validation_data =
      t.validation_data := by
  unfold GazeTracker.smooth_position
  split <;> rfl

/-- A successful `track` never touches the validation accumulator. -/
theorem track_validation_frame (cfg : Config) (t : GazeTracker)
    (d : RTInput) (r : GazeTracker × Pt)
    (h : GazeTracker.track cfg t d = .ok r) :
    r.1.validation_data = t.validation_data := by
  simp only [GazeTracker.track] at h
  split at h
  · cases h
  · cases h
    exact smooth_position_validation_frame cfg t _

/-- C10 (amended): entering VALIDATING via a successful `finish_calibration`
leaves the validation accumulator and the position history unchanged, only
the calibration accumulator being cleared; among the session operations only
an explicit `start_validation`, a `reset`, or a `finish_validation` empties
the validation accumulator — and `finish_validation` does so only after
passing exactly the accumulated samples to `train_validation` — so
validation samples accumulated before `finish_calibration` succeeded are
included in the data a later `finish_validation` hands to
`train_validation`. -/
theorem validation_accumulator_frame (strat : FitStrategy) (cfg : Config)
    (t : GazeTracker) (op : TrackerOp) :
    ((GazeTracker.finish_calibration strat t).2 = true →
      (GazeTracker.finish_calibration strat t).1.validation_data =
          t.validation_data ∧
      (GazeTracker.finish_calibration strat t).1.position_history =
          t.position_history ∧
      (GazeTracker.finish_calibration strat t).1.calibration_data = []) ∧
    (t.validation_data ≠ [] →
      (applyOp strat cfg op t).validation_data = [] →
      op = TrackerOp.startValidation ∨ op = TrackerOp.resetOp ∨
        op = TrackerOp.finishValidation) ∧
    (t.validation_data ≠ [] →
      (GazeTracker.finish_validation strat t).1.estimator =
        GazeEstimator.train_validation strat t.estimator
          (t.validation_data.map ValidationData.toRow)) := by
  refine ⟨?_, ?_, ?_⟩
  · intro hs
    cases hc : GazeEstimator.calibrate strat t.estimator
        t.calibration_data with
    | ok e =>
        unfold GazeTracker.finish_calibration
        rw [hc]
        exact ⟨rfl, rfl, rfl⟩
    | error err =>
        unfold GazeTracker.finish_calibration at hs
        rw [hc] at hs
        simp at hs
  · intro hne hemp
    cases op with
    | startCalibration =>
        simp only [applyOp, GazeTracker.start_calibration] at hemp
        exact absurd hemp hne
    | addCalibrationPoint d =>
        simp only [applyOp, GazeTracker.add_calibration_point] at hemp
        exact absurd hemp hne
    | finishCalibration =>
        simp only [applyOp, GazeTracker.finish_calibration] at hemp
        split at hemp
        · exact absurd hemp hne
        · exact absurd hemp hne
    | startValidation => exact Or.inl rfl
    | addValidationPoint sx sy px py =>
        simp only [applyOp, GazeTracker.add_validation_point] at hemp
        split at hemp
        · simp at hemp
        · exact absurd hemp hne
    | finishValidation => exact Or.inr (Or.inr rfl)
    | trackOp d =>
        simp only [applyOp] at hemp
        split at hemp
        · rename_i r hr
          rw [track_validation_frame cfg t d r hr] at hemp
          exact absurd hemp hne
        · exact absurd hemp hne
    | predictForValidation d =>
        simp only [applyOp] at hemp
        exact absurd hemp hne
    | resetOp => exact Or.inr (Or.inl rfl)
  · intro hne
    have hr : ¬ t.validation_data.isEmpty = true := by
      cases hd : t.validation_data with
      | nil => exact absurd hd hne
      | cons a l => simp [hd]
    unfold GazeTracker.finish_validation
    rw [if_neg hr]

/-- A concrete tracker about to finish calibration while already holding one
validation sample and one history point. -/
def preFinishTracker : GazeTracker :=
  { estimator := GazeEstimator.init defaultModelConfig,
    state := .CALIBRATING,
    calibration_data := samplePoints 10,
    validation_data := [{ screen_x := 0, screen_y := 0,
                          predicted_x := 1, predicted_y := 1 }],
    position_history := [(7, 7)] }

/-- Witness for C10 (amended) at concrete inputs: a successful
`finish_calibration` from a tracker holding one validation sample and one
history point preserves both while clearing the calibration accumulator;
`start_validation` may empty the accumulator; and `finish_validation` hands
exactly the accumulated sample to `train_validation`. -/
theorem validation_accumulator_frame_witness :
    ((GazeTracker.finish_calibration constStrategy
        preFinishTracker).1.validation_data =
          preFinishTracker.validation_data ∧
     (GazeTracker.finish_calibration constStrategy
        preFinishTracker).1.position_history = [(7, 7)] ∧
     (GazeTracker.finish_calibration constStrategy
        preFinishTracker).1.calibration_data = []) ∧
    (TrackerOp.startValidation = TrackerOp.startValidation ∨
     TrackerOp.startValidation = TrackerOp.resetOp ∨
     TrackerOp.startValidation = TrackerOp.finishValidation) ∧
    (GazeTracker.finish_validation constStrategy
        validatingTracker).1.estimator =
      GazeEstimator.train_validation constStrategy
        validatingTracker.estimator
        (validatingTracker.validation_data.map ValidationData.toRow) := by
  refine ⟨?_, ?_, ?_⟩
  · exact (validation_accumulator_frame constStrategy defaultConfig
      preFinishTracker TrackerOp.startValidation).1 rfl
  · exact (validation_accumulator_frame constStrategy defaultConfig
      validatingTracker TrackerOp.startValidation).2.1 (by decide)
      (by decide)
  · exact (validation_accumulator_frame constStrategy defaultConfig
      validatingTracker TrackerOp.startValidation).2.2 (by decide)

end Gazer
